import Mathlib

/-!
Verification of the GROOT orchestrator and session manager.

This file is a shallow embedding of the core of the repository:
`src/core/orchestrator.ts` (feedback merge, conflict detection, pipeline
failure semantics, curriculum loading) and the session manager
(`startSession`, `saveSession`, `loadSession`, `generateHandoff`).
JavaScript machine integers / `Date` millisecond values are modelled as
`Int`, strings as Lean `String`, thrown exceptions as `Except String`,
and `undefined`-able fields as `Option`.
-/

namespace Groot

/-! ## Data model (from `src/types`) -/

inductive AgentName where
  | seedling | bark | canopy
deriving DecidableEq, Repr

inductive FeedbackType where
  | approval | concern | suggestion | blocker
deriving DecidableEq, Repr

inductive FeedbackCategory where
  | technical | pedagogical | sequencing
deriving DecidableEq, Repr

inductive Severity where
  | low | medium | high | critical
deriving DecidableEq, Repr

inductive TargetType where
  | curriculum | phase
deriving DecidableEq, Repr

/-- `AgentFeedback.target`: `{ type: 'curriculum' | 'phase'; phaseNumber?: number }`.
`phaseNumber = none` models the field being `undefined`. -/
structure FeedbackTarget where
  type : TargetType
  phaseNumber : Option Nat
deriving DecidableEq, Repr

/-- One structured review finding (`AgentFeedback` in `src/types`). -/
structure AgentFeedback where
  agentName : AgentName
  feedbackType : FeedbackType
  category : FeedbackCategory
  target : FeedbackTarget
  message : String
  severity : Severity
  suggestedChange : Option String
deriving DecidableEq, Repr

structure LearningObjective where
  id : String
  description : String
  completed : Bool
deriving DecidableEq, Repr

structure Deliverable where
  id : String
  title : String
  description : String
  acceptanceCriteria : List String
  completed : Bool
deriving DecidableEq, Repr

inductive PhaseStatus where
  | locked | available | in_progress | completed
deriving DecidableEq, Repr

structure Phase where
  id : String
  number : Nat
  title : String
  description : String
  estimatedHours : Nat
  objectives : List LearningObjective
  deliverables : List Deliverable
  status : PhaseStatus
deriving DecidableEq, Repr

structure Curriculum where
  id : String
  title : String
  description : String
  topic : String
  phases : List Phase
  currentPhaseIndex : Nat
deriving DecidableEq, Repr

/-- Ephemeral per-run state (`SharedContext` in `src/types`). -/
structure SharedContext where
  originalTopic : String
  reviewRound : Nat
  seedlingContributions : List String
  barkContributions : List String
  canopyContributions : List String
  consensusReached : Bool
deriving DecidableEq, Repr

structure OrchestrationResult where
  success : Bool
  finalCurriculum : Curriculum
  allFeedback : List AgentFeedback
  appliedChanges : List String
  unresolvedIssues : List AgentFeedback
deriving DecidableEq, Repr

/-! ## JavaScript string primitives used by the orchestrator -/

/-- `leadsWith l p` is true when `p` is an initial segment of `l`
(models a successful match of `p` at the start of `l`). -/
def leadsWith : List Char → List Char → Bool
  | _, [] => true
  | [], _ :: _ => false
  | c :: cs, d :: ds => (c == d) && leadsWith cs ds

/-- Substring search on character lists (models `String.prototype.includes`). -/
def hasSub : List Char → List Char → Bool
  | [], pat => pat.isEmpty
  | c :: cs, pat => leadsWith (c :: cs) pat || hasSub cs pat

/-- `s.includes(pat)` on JS strings. -/
def jsIncludes (s pat : String) : Bool :=
  hasSub s.toList pat.toList

/-- `s.toLowerCase()` (ASCII range; the keyword lists below are ASCII). -/
def jsToLowerCase (s : String) : String :=
  ⟨s.toList.map Char.toLower⟩

/-! ## Orchestrator merge step (`src/core/orchestrator.ts`) -/

def targetTypeStr : TargetType → String
  | .curriculum => "curriculum"
  | .phase => "phase"

def agentNameStr : AgentName → String
  | .seedling => "seedling"
  | .bark => "bark"
  | .canopy => "canopy"

def categoryStr : FeedbackCategory → String
  | .technical => "technical"
  | .pedagogical => "pedagogical"
  | .sequencing => "sequencing"

/-- Group key used by `detectConflicts`:
`` `${f.target.type}-${f.target.phaseNumber || 'all'}` ``.
A `phaseNumber` of `undefined` or `0` is falsy in JS, hence `'all'`. -/
def keyOf (f : AgentFeedback) : String :=
  targetTypeStr f.target.type ++ "-" ++
    (match f.target.phaseNumber with
     | some n => if n = 0 then "all" else toString n
     | none => "all")

/-- The distinct group keys in first-occurrence order: models the iteration
order of the insertion-ordered `Map` built by `detectConflicts`. -/
def keysInOrder (feedback : List AgentFeedback) : List String :=
  feedback.foldl (fun acc f => if acc.contains (keyOf f) then acc else acc ++ [keyOf f]) []

/-- The group stored under key `k`: all items of `feedback` with that key,
in list order (the order they were pushed into the `Map` entry). -/
def groupOf (feedback : List AgentFeedback) (k : String) : List AgentFeedback :=
  feedback.filter (fun f => keyOf f == k)

/-- `checkForOpposingSuggestions` from `src/core/orchestrator.ts`: keyword
scan over the two reviewers' messages. -/
def complexityUp : List String := ["add", "increase", "more", "advanced", "complex"]

def complexityDown : List String := ["simplify", "reduce", "less", "basic", "remove"]

def checkForOpposingSuggestions (canopyFeedback barkFeedback : List AgentFeedback) : Bool :=
  let canopyWantsMore := canopyFeedback.any fun f =>
    complexityUp.any fun word => jsIncludes (jsToLowerCase f.message) word
  let canopyWantsLess := canopyFeedback.any fun f =>
    complexityDown.any fun word => jsIncludes (jsToLowerCase f.message) word
  let barkWantsMore := barkFeedback.any fun f =>
    complexityUp.any fun word => jsIncludes (jsToLowerCase f.message) word
  let barkWantsLess := barkFeedback.any fun f =>
    complexityDown.any fun word => jsIncludes (jsToLowerCase f.message) word
  (canopyWantsMore && barkWantsLess) || (canopyWantsLess && barkWantsMore)

/-- The canopy sub-list of a group (`group.filter(f => f.agentName === 'canopy')`). -/
def canopyOf (feedback : List AgentFeedback) (k : String) : List AgentFeedback :=
  (groupOf feedback k).filter (fun f => f.agentName == AgentName.canopy)

/-- The bark sub-list of a group (`group.filter(f => f.agentName === 'bark')`). -/
def barkOf (feedback : List AgentFeedback) (k : String) : List AgentFeedback :=
  (groupOf feedback k).filter (fun f => f.agentName == AgentName.bark)

/-- Whether the group under key `k` is flagged as a conflict. -/
def conflictKey (feedback : List AgentFeedback) (k : String) : Bool :=
  checkForOpposingSuggestions (canopyOf feedback k) (barkOf feedback k)

/-- `detectConflicts` from `src/core/orchestrator.ts`.  The `for`-loop over
the grouping `Map` appends, per key in insertion order, either
`canopyFeedback ++ barkFeedback` to `conflicts` or the whole group to
`nonConflicting`; rendered here as a map-then-join over the ordered keys. -/
def detectConflicts (feedback : List AgentFeedback) :
    List AgentFeedback × List AgentFeedback :=
  let keys := keysInOrder feedback
  ( (keys.map (fun k =>
      if conflictKey feedback k then canopyOf feedback k ++ barkOf feedback k
      else [])).flatten
  , (keys.map (fun k =>
      if conflictKey feedback k then []
      else groupOf feedback k)).flatten )

/-- `mergeFeedback` from `src/core/orchestrator.ts`.  The `byPhase`
partition computed at the top of the source function does not flow into
the returned result and is omitted.  Returns the result together with the
updated context (the source mutates `context.consensusReached`). -/
def mergeFeedback (curriculum : Curriculum) (allFeedback : List AgentFeedback)
    (context : SharedContext) : OrchestrationResult × SharedContext :=
  let conflicts := (detectConflicts allFeedback).1
  let nonConflicting := (detectConflicts allFeedback).2
  let appliedChanges := nonConflicting.filterMap fun f =>
    f.suggestedChange.map fun sc =>
      "[" ++ agentNameStr f.agentName ++ "] " ++ categoryStr f.category ++ ": " ++ sc
  let unresolvedIssues := conflicts ++ allFeedback.filter (fun f => f.severity == Severity.critical)
  let consensusReached :=
    unresolvedIssues.length == 0 &&
    !(allFeedback.any fun f => f.feedbackType == FeedbackType.blocker)
  ( { success := consensusReached || unresolvedIssues.length == 0
    , finalCurriculum := curriculum
    , allFeedback := allFeedback
    , appliedChanges := appliedChanges
    , unresolvedIssues := unresolvedIssues }
  , { context with consensusReached := consensusReached } )

/-! ## Pipeline (`orchestrateGrow`) and curriculum loading -/

/-- The `try` block of `orchestrateGrow`: run the stages in order, stopping
at the first raised error.  The effectful stages (generate/load, the two
reviews) are passed in as `Except`-valued parameters; review scores do not
flow into the result and are omitted. -/
def orchestrateGrowSteps
    (gen : Except String Curriculum)
    (tech : Curriculum → Except String (List AgentFeedback))
    (ped : Curriculum → Except String (List AgentFeedback))
    (context : SharedContext) : Except String OrchestrationResult :=
  match gen with
  | .error e => .error e
  | .ok curriculum =>
    match tech curriculum with
    | .error e => .error e
    | .ok technicalReview =>
      match ped curriculum with
      | .error e => .error e
      | .ok pedagogicalReview =>
        .ok (mergeFeedback curriculum (technicalReview ++ pedagogicalReview) context).1

/-- `orchestrateGrow` from `src/core/orchestrator.ts`: the whole pipeline
runs inside one `try`/`catch` whose handler re-throws
`` `Orchestration failed: ${errorMessage}` ``. -/
def orchestrateGrow
    (gen : Except String Curriculum)
    (tech : Curriculum → Except String (List AgentFeedback))
    (ped : Curriculum → Except String (List AgentFeedback))
    (context : SharedContext) : Except String OrchestrationResult :=
  match orchestrateGrowSteps gen tech ped context with
  | .ok result => .ok result
  | .error e => .error ("Orchestration failed: " ++ e)

/-- `s.endsWith(suf)` on JS strings. -/
def jsEndsWith (s suf : String) : Bool :=
  leadsWith s.toList.reverse suf.toList.reverse

/-- `loadCurriculum` from `src/core/orchestrator.ts`.  The filesystem is a
partial map from paths to contents (`existsSync` + `readFileSync`),
`resolve` models `path.resolve`, and `parseJson` models
`JSON.parse(content) as Curriculum` (which throws on malformed JSON). -/
def loadCurriculum (fsys : String → Option String) (resolve : String → String)
    (parseJson : String → Except String Curriculum)
    (filePath : String) : Except String Curriculum :=
  match fsys (resolve filePath) with
  | none => .error ("Curriculum file not found: " ++ resolve filePath)
  | some content =>
      if jsEndsWith filePath ".json" then
        parseJson content
      else
        .error "Loading from markdown is not yet supported. Please provide a JSON file."

/-! ## Dates

JS `Date` values are epoch milliseconds, modelled as `Int`.
`Date.prototype.toISOString` prints the proleptic Gregorian UTC components
(4-digit year for 0..9999, expanded `±YYYYYY` year otherwise) and is only
defined for |t| ≤ 8.64e15; `new Date(string)` parses that format back.
The calendar conversions follow the standard civil-from-days /
days-from-civil algorithms (floor division throughout, as in ECMA-262). -/

/-- Days-since-epoch to (year, month, day) in the proleptic Gregorian
calendar (Euclidean-affine decomposition: century, day-of-century,
year-of-century, day-of-March-based-year; `/` and `%` on `Int` are floor
division and nonnegative remainder, matching ECMA-262's date arithmetic). -/
def civilFromDays (z : Int) : Int × Int × Int :=
  let za := z + 719468
  let c := (4 * za + 3) / 146097
  let nc := (4 * za + 3) % 146097 / 4
  let zc := (4 * nc + 3) / 1461
  let ny := (4 * nc + 3) % 1461 / 4
  let y := 100 * c + zc
  let mp := (5 * ny + 2) / 153
  let d := ny - (153 * mp + 2) / 5 + 1
  let m := mp + (if mp < 10 then 3 else -9)
  (if m ≤ 2 then y + 1 else y, m, d)

/-- (year, month, day) to days-since-epoch, inverse of `civilFromDays`. -/
def daysFromCivil (y m d : Int) : Int :=
  let y' := if m ≤ 2 then y - 1 else y
  let mp := m + (if m > 2 then -3 else 9)
  let c := y' / 100
  let zc := y' % 100
  let doy := (153 * mp + 2) / 5 + d - 1
  146097 * c / 4 + 1461 * zc / 4 + doy - 719468

/-- Fixed-width decimal digits, most significant first (`n < 10^k`). -/
def padDigits : Nat → Nat → List Char
  | 0, _ => []
  | k + 1, n => Nat.digitChar (n / 10 ^ k) :: padDigits k (n % 10 ^ k)

/-- The character list of `toISOString(t)`: `YYYY-MM-DDTHH:mm:ss.sssZ`,
with the year expanded to `±YYYYYY` outside 0..9999. -/
def isoChars (t : Int) : List Char :=
  let days := t / 86400000
  let timeOfDay := t % 86400000
  let ymd := civilFromDays days
  let yearChars :=
    if 0 ≤ ymd.1 && ymd.1 ≤ 9999 then padDigits 4 ymd.1.toNat
    else if ymd.1 < 0 then '-' :: padDigits 6 (-ymd.1).toNat
    else '+' :: padDigits 6 ymd.1.toNat
  yearChars ++ '-' ::
    (padDigits 2 ymd.2.1.toNat ++ '-' ::
      (padDigits 2 ymd.2.2.toNat ++ 'T' ::
        (padDigits 2 (timeOfDay / 3600000).toNat ++ ':' ::
          (padDigits 2 (timeOfDay % 3600000 / 60000).toNat ++ ':' ::
            (padDigits 2 (timeOfDay % 60000 / 1000).toNat ++ '.' ::
              (padDigits 3 (timeOfDay % 1000).toNat ++ ['Z']))))))

/-- `Date.prototype.toISOString` (defined for |t| ≤ 8.64e15). -/
def toISOString (t : Int) : String := ⟨isoChars t⟩

/-- Value of an ASCII digit character. -/
def digitVal (c : Char) : Option Nat :=
  if '0' ≤ c && c ≤ '9' then some (c.toNat - '0'.toNat) else none

/-- Read exactly `k` decimal digits, most significant first. -/
def readDigitsAux : Nat → Nat → List Char → Option (Nat × List Char)
  | acc, 0, cs => some (acc, cs)
  | _, _ + 1, [] => none
  | acc, k + 1, c :: cs =>
      match digitVal c with
      | some d => readDigitsAux (acc * 10 + d) k cs
      | none => none

def readDigits (k : Nat) (cs : List Char) : Option (Nat × List Char) :=
  readDigitsAux 0 k cs

/-- Consume one expected literal character. -/
def expectChar (c : Char) : List Char → Option (List Char)
  | d :: cs => if c == d then some cs else none
  | [] => none

/-- Year field of the date-time string format: a leading `+` or `-` starts
an expanded six-digit year, anything else a four-digit year. -/
def parseYearPart : List Char → Option (Int × List Char)
  | '+' :: rest => (readDigits 6 rest).map (fun p => ((p.1 : Int), p.2))
  | '-' :: rest => (readDigits 6 rest).map (fun p => (-(p.1 : Int), p.2))
  | cs => (readDigits 4 cs).map (fun p => ((p.1 : Int), p.2))

/-- `YYYY-MM-DD` (or expanded-year) prefix: returns (year, month, day,
remaining input). -/
def parseDatePart (cs : List Char) : Option (Int × Int × Int × List Char) :=
  (parseYearPart cs).bind fun yc =>
  (expectChar '-' yc.2).bind fun cs1 =>
  (readDigits 2 cs1).bind fun mc =>
  (expectChar '-' mc.2).bind fun cs2 =>
  (readDigits 2 cs2).bind fun dc =>
  some (yc.1, (mc.1 : Int), (dc.1 : Int), dc.2)

/-- `THH:mm:ss.sssZ` suffix: returns (hour, minute, second, millisecond,
remaining input). -/
def parseTimePart (cs : List Char) : Option (Int × Int × Int × Int × List Char) :=
  (expectChar 'T' cs).bind fun cs3 =>
  (readDigits 2 cs3).bind fun hc =>
  (expectChar ':' hc.2).bind fun cs4 =>
  (readDigits 2 cs4).bind fun mic =>
  (expectChar ':' mic.2).bind fun cs5 =>
  (readDigits 2 cs5).bind fun sc =>
  (expectChar '.' sc.2).bind fun cs6 =>
  (readDigits 3 cs6).bind fun msc =>
  (expectChar 'Z' msc.2).bind fun cs7 =>
  some ((hc.1 : Int), (mic.1 : Int), (sc.1 : Int), (msc.1 : Int), cs7)

/-- Parser for the date-time string format written by `toISOString`
(models `new Date(string)` on such strings; a string JS would turn into an
Invalid Date is modelled as `none`). -/
def parseIsoChars (cs : List Char) : Option Int :=
  (parseDatePart cs).bind fun dt =>
  (parseTimePart dt.2.2.2).bind fun tm =>
  match tm.2.2.2.2 with
  | [] => some (daysFromCivil dt.1 dt.2.1 dt.2.2.1 * 86400000 +
      ((tm.1 * 60 + tm.2.1) * 60 + tm.2.2.1) * 1000 + tm.2.2.2.1)
  | _ :: _ => none

/-- `new Date(s).getTime()` for ISO strings (`none` = Invalid Date). -/
def parseISO (s : String) : Option Int := parseIsoChars s.toList

/-! ## Session manager (session module of the repository) -/

inductive SessionStatus where
  | active | completed | abandoned
deriving DecidableEq, Repr

structure SessionProgress where
  objectivesCompleted : List String
  deliverablesCompleted : List String
  timeSpentMinutes : Int
deriving DecidableEq, Repr

structure SessionHandoff where
  summary : String
  completedWork : List String
  remainingWork : List String
  nextSteps : List String
  promptForNextSession : String
deriving DecidableEq, Repr

structure Session where
  id : String
  curriculumId : String
  curriculumPath : String
  curriculumTitle : String
  phaseNumber : Nat
  phaseTitle : String
  phaseId : String
  startedAt : Int
  endedAt : Option Int
  status : SessionStatus
  notes : List String
  questionsAsked : List String
  progress : SessionProgress
  handoff : Option SessionHandoff
deriving DecidableEq, Repr

/-- `startSession(curriculum, phaseNumber)`.  The effectful inputs
(`uuidv4()`, `new Date()`) and the module-level `currentSession` register
are passed and returned explicitly; the result pairs the returned-or-thrown
session with the new value of the register. -/
def startSession (curriculum : Curriculum) (phaseNumber : Nat)
    (newId : String) (now : Int) (currentSession : Option Session) :
    Except String Session × Option Session :=
  match curriculum.phases.find? (fun p => p.number == phaseNumber) with
  | none =>
      (.error ("Phase " ++ toString phaseNumber ++ " not found in curriculum"), currentSession)
  | some phase =>
      let session : Session :=
        { id := newId
        , curriculumId := curriculum.id
        , curriculumPath := ""
        , curriculumTitle := curriculum.title
        , phaseNumber := phaseNumber
        , phaseTitle := phase.title
        , phaseId := phase.id
        , startedAt := now
        , endedAt := none
        , status := .active
        , notes := []
        , questionsAsked := []
        , progress := { objectivesCompleted := [], deliverablesCompleted := [], timeSpentMinutes := 0 }
        , handoff := none }
      (.ok session, some session)

def isSlugChar (c : Char) : Bool :=
  ('a' ≤ c && c ≤ 'z') || ('0' ≤ c && c ≤ '9')

/-- `replace(/[^a-z0-9]+/g, '-')`: each maximal run of non-slug characters
becomes a single dash.  The flag records whether the previous character was
part of such a run. -/
def collapseRuns : Bool → List Char → List Char
  | _, [] => []
  | inRun, c :: cs =>
      if isSlugChar c then c :: collapseRuns false cs
      else if inRun then collapseRuns true cs
      else '-' :: collapseRuns true cs

/-- Drop a single leading dash (one match of the anchored dash pattern). -/
def dropLeadDash : List Char → List Char
  | '-' :: cs => cs
  | cs => cs

/-- `replace(/^-|-$/g, '')`: drop one leading and one trailing dash. -/
def stripEdgeDashes (l : List Char) : List Char :=
  ((dropLeadDash l).reverse |> dropLeadDash).reverse

/-- The slug built inside `generateSessionFilename`:
lowercase, collapse non-alphanumeric runs to `-`, strip edge dashes,
`substring(0, 30)`. -/
def jsSlug (title : String) : String :=
  ⟨(stripEdgeDashes (collapseRuns false (title.toList.map Char.toLower))).take 30⟩

/-- `new Date().toISOString().split('T')[0]`. -/
def isoDatePart (t : Int) : String :=
  ⟨(isoChars t).takeWhile (fun c => c != 'T')⟩

/-- `generateSessionFilename(curriculum, phaseNumber)`: only
`curriculum.title` is read from the curriculum stub the caller builds, so
the title is taken directly; `now` is the `new Date()` clock reading. -/
def generateSessionFilename (curriculumTitle : String) (phaseNumber : Nat) (now : Int) : String :=
  isoDatePart now ++ "-" ++ jsSlug curriculumTitle ++ "-phase-" ++ toString phaseNumber ++ ".json"

/-- `Math.round(num / den)` for `den > 0`, computed exactly:
round half toward positive infinity. -/
def jsRoundDiv (num den : Int) : Int :=
  (2 * num + den) / (2 * den)

/-- The JSON document written by `saveSession` (`JSON.stringify(session)`).
`Date` fields serialize through `toISOString`; everything else is plain data. -/
structure StoredSession where
  id : String
  curriculumId : String
  curriculumPath : String
  curriculumTitle : String
  phaseNumber : Nat
  phaseTitle : String
  phaseId : String
  startedAt : String
  endedAt : Option String
  status : SessionStatus
  notes : List String
  questionsAsked : List String
  progress : SessionProgress
  handoff : Option SessionHandoff
deriving DecidableEq, Repr

def serializeSession (s : Session) : StoredSession :=
  { id := s.id
  , curriculumId := s.curriculumId
  , curriculumPath := s.curriculumPath
  , curriculumTitle := s.curriculumTitle
  , phaseNumber := s.phaseNumber
  , phaseTitle := s.phaseTitle
  , phaseId := s.phaseId
  , startedAt := toISOString s.startedAt
  , endedAt := s.endedAt.map toISOString
  , status := s.status
  , notes := s.notes
  , questionsAsked := s.questionsAsked
  , progress := s.progress
  , handoff := s.handoff }

/-- `saveSession(session)`.  Returns the target file path, the JSON
document written there, and the session as it stands after the call (the
source mutates `session.progress.timeSpentMinutes` in place when `endedAt`
is set; a `Date` object is always truthy, so the source's
`session.endedAt && session.startedAt` test reduces to `endedAt` being
present).  `now` is the `new Date()` clock reading used for the filename. -/
def saveSession (sessionsDir : String) (session : Session) (now : Int) :
    String × StoredSession × Session :=
  let filename := generateSessionFilename session.curriculumTitle session.phaseNumber now
  let filePath := sessionsDir ++ "/" ++ filename
  let session' :=
    match session.endedAt with
    | some endMs =>
        { session with progress :=
            { session.progress with
                timeSpentMinutes := jsRoundDiv (endMs - session.startedAt) 60000 } }
    | none => session
  (filePath, serializeSession session', session')

/-- `loadSession(sessionPath)` applied to the parsed JSON document:
restores the `Date` fields with `new Date(...)`.  A date string JS would
turn into an Invalid Date is modelled as `none` (never the case for
documents produced by `saveSession`). -/
def loadSession (doc : StoredSession) : Option Session := do
  let startedAt ← parseISO doc.startedAt
  let endedAt ← (match doc.endedAt with
    | some e => (parseISO e).map some
    | none => some none)
  pure
    { id := doc.id
    , curriculumId := doc.curriculumId
    , curriculumPath := doc.curriculumPath
    , curriculumTitle := doc.curriculumTitle
    , phaseNumber := doc.phaseNumber
    , phaseTitle := doc.phaseTitle
    , phaseId := doc.phaseId
    , startedAt := startedAt
    , endedAt := endedAt
    , status := doc.status
    , notes := doc.notes
    , questionsAsked := doc.questionsAsked
    , progress := doc.progress
    , handoff := doc.handoff }

/-- `generateHandoff(session, phase, additionalNotes?)`. -/
def generateHandoff (session : Session) (phase : Phase)
    (additionalNotes : Option String) : SessionHandoff :=
  let completedObjectives := phase.objectives.filter
    (fun o => session.progress.objectivesCompleted.contains o.id)
  let remainingObjectives := phase.objectives.filter
    (fun o => !session.progress.objectivesCompleted.contains o.id)
  let completedDeliverables := phase.deliverables.filter
    (fun d => session.progress.deliverablesCompleted.contains d.id)
  let remainingDeliverables := phase.deliverables.filter
    (fun d => !session.progress.deliverablesCompleted.contains d.id)
  let completedWork :=
    completedObjectives.map (fun o => o.description) ++
    completedDeliverables.map (fun d => "Completed: " ++ d.title)
  let remainingWork :=
    remainingObjectives.map (fun o => o.description) ++
    remainingDeliverables.map (fun d => d.title)
  let nextSteps :=
    (match remainingDeliverables.head? with
     | some d => ["Start with: " ++ d.title]
     | none => []) ++
    (match remainingObjectives.head? with
     | some o => ["Focus on: " ++ o.description]
     | none => []) ++
    (if session.notes.length > 0 then ["Review notes from last session"] else [])
  let objProgress := toString completedObjectives.length ++ "/" ++
    toString phase.objectives.length ++ " objectives"
  let delProgress := toString completedDeliverables.length ++ "/" ++
    toString phase.deliverables.length ++ " deliverables"
  let summary :=
    "Session on Phase " ++ toString session.phaseNumber ++ ": " ++ session.phaseTitle ++ ". " ++
    "Completed " ++ objProgress ++ ", " ++ delProgress ++ ". " ++
    (match additionalNotes with
     | some notes => notes
     | none => "")
  let base := "Resume Phase " ++ toString session.phaseNumber ++ " - " ++ session.phaseTitle
  let withDeliverable :=
    match remainingDeliverables.head? with
    | some d => base ++ ". Focus on: " ++ d.title
    | none => base
  let promptForNextSession :=
    match remainingObjectives.head?, remainingDeliverables.head? with
    | some o, none => withDeliverable ++ ". Complete: " ++ o.description
    | _, _ => withDeliverable
  { summary := summary
  , completedWork := completedWork
  , remainingWork := remainingWork
  , nextSteps := nextSteps
  , promptForNextSession := promptForNextSession }

/-! ## Concrete fixtures used by counterexamples and witnesses -/

def emptyCurriculum : Curriculum :=
  { id := "c1", title := "Topic", description := "", topic := "Topic"
  , phases := [], currentPhaseIndex := 0 }

def freshContext : SharedContext :=
  { originalTopic := "Topic", reviewRound := 1
  , seedlingContributions := [], barkContributions := [], canopyContributions := []
  , consensusReached := false }

/-- A lone `blocker` finding: non-critical, from one reviewer only, with a
message containing none of the complexity keywords. -/
def blockerFeedback : AgentFeedback :=
  { agentName := .canopy, feedbackType := .blocker, category := .technical
  , target := { type := .curriculum, phaseNumber := none }
  , message := "unworkable", severity := .low, suggestedChange := none }

def criticalFeedback : AgentFeedback :=
  { agentName := .bark, feedbackType := .concern, category := .pedagogical
  , target := { type := .phase, phaseNumber := some 2 }
  , message := "this is broken", severity := .critical, suggestedChange := none }

/-- Canopy concern that matches the increase keyword `add`. -/
def canopyAddFeedback : AgentFeedback :=
  { agentName := .canopy, feedbackType := .concern, category := .technical
  , target := { type := .phase, phaseNumber := some 2 }
  , message := "Add more depth", severity := .medium, suggestedChange := none }

/-- Bark concern on the same phase matching the decrease keyword `simplify`. -/
def barkSimplifyFeedback : AgentFeedback :=
  { agentName := .bark, feedbackType := .concern, category := .pedagogical
  , target := { type := .phase, phaseNumber := some 2 }
  , message := "Simplify the exercises", severity := .medium, suggestedChange := none }

/-- Critical canopy item in the same conflicting group as
`barkSimplifyFeedback`. -/
def canopyCriticalAdd : AgentFeedback :=
  { agentName := .canopy, feedbackType := .concern, category := .technical
  , target := { type := .phase, phaseNumber := some 2 }
  , message := "Add unit tests everywhere", severity := .critical, suggestedChange := none }

/-- Review stage that succeeds with no findings. -/
def stageNoFindings : Curriculum → Except String (List AgentFeedback) := fun _ => .ok []

/-- Review stage that throws. -/
def stageBoom : Curriculum → Except String (List AgentFeedback) := fun _ => .error "boom"

/-- One-file filesystem holding a markdown curriculum. -/
def mdOnlyFs : String → Option String :=
  fun p => if p = "plan.md" then some "# Plan" else none

/-- `JSON.parse` stub that always throws (never reached on `plan.md`). -/
def parseAlwaysFails : String → Except String Curriculum := fun _ => .error "SyntaxError"

def phaseOne : Phase :=
  { id := "p1", number := 1, title := "Basics", description := "start here"
  , estimatedHours := 10
  , objectives :=
      [ { id := "o1", description := "learn the syntax", completed := false }
      , { id := "o2", description := "read the style guide", completed := false }
      , { id := "o3", description := "set up the toolchain", completed := false } ]
  , deliverables :=
      [ { id := "d1", title := "hello world app", description := ""
        , acceptanceCriteria := [], completed := false }
      , { id := "d2", title := "unit test suite", description := ""
        , acceptanceCriteria := [], completed := false } ]
  , status := .available }

def oneCurriculum : Curriculum :=
  { id := "c2", title := "Learn X", description := "", topic := "X"
  , phases := [phaseOne], currentPhaseIndex := 0 }

/-- A session on `oneCurriculum` phase 1, started at the epoch, with one
objective marked complete and no endedAt. -/
def sessionX : Session :=
  { id := "s1", curriculumId := "c2", curriculumPath := "/c/x.json"
  , curriculumTitle := "Learn X", phaseNumber := 1, phaseTitle := "Basics"
  , phaseId := "p1", startedAt := 0, endedAt := none, status := .active
  , notes := ["remember the borrow checker"], questionsAsked := []
  , progress := { objectivesCompleted := ["o1"], deliverablesCompleted := []
                , timeSpentMinutes := 0 }
  , handoff := none }

/-- `sessionX` ended 95 minutes after it started. -/
def sessionEnded : Session :=
  { sessionX with endedAt := some 5700000, status := .completed }

end Groot

namespace Groot

/-! ## Lemmas about the grouping used by `detectConflicts` -/

theorem keys_foldl_mono (fb : List AgentFeedback) (acc : List String) (k : String)
    (h : k ∈ acc) :
    k ∈ fb.foldl (fun acc f => if acc.contains (keyOf f) then acc else acc ++ [keyOf f]) acc := by
  induction fb generalizing acc with
  | nil => simpa using h
  | cons g gs ih =>
      simp only [List.foldl_cons]
      apply ih
      split
      · exact h
      · exact List.mem_append_left _ h

theorem keyOf_mem_keys_foldl (fb : List AgentFeedback) (acc : List String)
    (f : AgentFeedback) (h : f ∈ fb) :
    keyOf f ∈ fb.foldl (fun acc f => if acc.contains (keyOf f) then acc else acc ++ [keyOf f]) acc := by
  induction fb generalizing acc with
  | nil => cases h
  | cons g gs ih =>
      simp only [List.foldl_cons]
      rcases List.mem_cons.mp h with rfl | hmem
      · apply keys_foldl_mono
        split
        · next hc => simpa using hc
        · exact List.mem_append_right _ (by simp)
      · exact ih _ hmem

theorem keyOf_mem_keysInOrder {fb : List AgentFeedback} {f : AgentFeedback}
    (h : f ∈ fb) : keyOf f ∈ keysInOrder fb :=
  keyOf_mem_keys_foldl fb [] f h

theorem mem_groupOf {fb : List AgentFeedback} {k : String} {x : AgentFeedback} :
    x ∈ groupOf fb k ↔ x ∈ fb ∧ keyOf x = k := by
  unfold groupOf
  simp [List.mem_filter]

theorem mem_canopyOf {fb : List AgentFeedback} {k : String} {x : AgentFeedback} :
    x ∈ canopyOf fb k ↔ x ∈ groupOf fb k ∧ x.agentName = AgentName.canopy := by
  unfold canopyOf
  simp [List.mem_filter]

theorem mem_barkOf {fb : List AgentFeedback} {k : String} {x : AgentFeedback} :
    x ∈ barkOf fb k ↔ x ∈ groupOf fb k ∧ x.agentName = AgentName.bark := by
  unfold barkOf
  simp [List.mem_filter]

theorem mem_detectConflicts_fst {fb : List AgentFeedback} {x : AgentFeedback} :
    x ∈ (detectConflicts fb).1 ↔
      ∃ k, k ∈ keysInOrder fb ∧ conflictKey fb k = true ∧
        (x ∈ canopyOf fb k ∨ x ∈ barkOf fb k) := by
  unfold detectConflicts
  simp only [List.mem_flatten, List.mem_map]
  constructor
  · rintro ⟨l, ⟨k, hk, rfl⟩, hx⟩
    by_cases hc : conflictKey fb k
    · refine ⟨k, hk, hc, ?_⟩
      simpa [hc, List.mem_append] using hx
    · simp [hc] at hx
  · rintro ⟨k, hk, hc, hx⟩
    refine ⟨_, ⟨k, hk, rfl⟩, ?_⟩
    simp only [hc, if_true, List.mem_append]
    exact hx

theorem mem_detectConflicts_snd {fb : List AgentFeedback} {x : AgentFeedback} :
    x ∈ (detectConflicts fb).2 ↔
      ∃ k, k ∈ keysInOrder fb ∧ conflictKey fb k = false ∧ x ∈ groupOf fb k := by
  unfold detectConflicts
  simp only [List.mem_flatten, List.mem_map]
  constructor
  · rintro ⟨l, ⟨k, hk, rfl⟩, hx⟩
    by_cases hc : conflictKey fb k
    · simp [hc] at hx
    · exact ⟨k, hk, by simpa using hc, by simpa [hc] using hx⟩
  · rintro ⟨k, hk, hc, hx⟩
    refine ⟨_, ⟨k, hk, rfl⟩, ?_⟩
    simp only [hc, if_false]
    exact hx

theorem mergeFeedback_unresolvedIssues (c : Curriculum) (fb : List AgentFeedback)
    (ctx : SharedContext) :
    (mergeFeedback c fb ctx).1.unresolvedIssues =
      (detectConflicts fb).1 ++ fb.filter (fun f => f.severity == Severity.critical) := rfl

theorem mergeFeedback_success (c : Curriculum) (fb : List AgentFeedback)
    (ctx : SharedContext) :
    (mergeFeedback c fb ctx).1.success =
      ((((detectConflicts fb).1 ++ fb.filter (fun f => f.severity == Severity.critical)).length == 0 &&
        !(fb.any fun f => f.feedbackType == FeedbackType.blocker)) ||
       (((detectConflicts fb).1 ++ fb.filter (fun f => f.severity == Severity.critical)).length == 0)) := rfl

/-! ## C1 -/

/-- C1 counterexample: a single non-critical `blocker` feedback item
produces an empty `unresolvedIssues` list, yet `success` is `true` — so
`success` is not equivalent to "no unresolved issues and no blocker". -/
theorem C1_counterexample :
    (mergeFeedback emptyCurriculum [blockerFeedback] freshContext).1.success = true ∧
    (mergeFeedback emptyCurriculum [blockerFeedback] freshContext).1.unresolvedIssues = [] ∧
    ([blockerFeedback].any fun f => f.feedbackType == FeedbackType.blocker) = true := by
  refine ⟨?_, ?_, rfl⟩ <;> rfl

/-- C1 (amended): `OrchestrationResult.success` is true iff
`unresolvedIssues` is empty.  The blocker check only feeds
`context.consensusReached`, which is absorbed by the disjunction
`consensusReached || unresolvedIssues.length === 0`. -/
theorem C1_success_iff_unresolved_empty (c : Curriculum) (fb : List AgentFeedback)
    (ctx : SharedContext) :
    (mergeFeedback c fb ctx).1.success = true ↔
      (mergeFeedback c fb ctx).1.unresolvedIssues = [] := by
  rw [mergeFeedback_success, mergeFeedback_unresolvedIssues]
  rcases h : (detectConflicts fb).1 ++ fb.filter (fun f => f.severity == Severity.critical) with _ | ⟨a, l⟩
  · simp
  · simp

/-! ## C3 -/

/-- C3: every `critical`-severity feedback item passed to the merge step is
a member of `OrchestrationResult.unresolvedIssues`, regardless of
category, kind, or conflict status. -/
theorem C3_critical_in_unresolvedIssues (c : Curriculum) (fb : List AgentFeedback)
    (ctx : SharedContext) (f : AgentFeedback) (hf : f ∈ fb)
    (hcrit : f.severity = Severity.critical) :
    f ∈ (mergeFeedback c fb ctx).1.unresolvedIssues := by
  rw [mergeFeedback_unresolvedIssues]
  exact List.mem_append_right _ (List.mem_filter.mpr ⟨hf, by simp [hcrit]⟩)

/-- C3 witness: concrete run with one critical item. -/
theorem C3_witness :
    criticalFeedback ∈
      (mergeFeedback emptyCurriculum [criticalFeedback] freshContext).1.unresolvedIssues :=
  C3_critical_in_unresolvedIssues emptyCurriculum [criticalFeedback] freshContext
    criticalFeedback (by simp) (by rfl)

/-! ## C2 -/

/-- C2: group the merge-step feedback by `(target kind, phase number or
"all")`.  If, within a group, the keyword scan finds an increase signal on
one reviewer's side and a decrease signal on the other (in either
direction), every item of the group is in `unresolvedIssues`; a group with
no such mismatch contributes no item, provided none of its items is
`critical`.  (In the pipeline every merge-step item originates from the
canopy or bark reviewer, which is the `hAgents` hypothesis.) -/
theorem C2_conflict_group_membership (c : Curriculum) (fb : List AgentFeedback)
    (ctx : SharedContext)
    (hAgents : ∀ f ∈ fb, f.agentName = AgentName.canopy ∨ f.agentName = AgentName.bark)
    (g : AgentFeedback) (hg : g ∈ fb) :
    (checkForOpposingSuggestions (canopyOf fb (keyOf g)) (barkOf fb (keyOf g)) = true →
      ∀ f ∈ groupOf fb (keyOf g), f ∈ (mergeFeedback c fb ctx).1.unresolvedIssues) ∧
    (checkForOpposingSuggestions (canopyOf fb (keyOf g)) (barkOf fb (keyOf g)) = false →
      (∀ f ∈ groupOf fb (keyOf g), f.severity ≠ Severity.critical) →
      ∀ f ∈ groupOf fb (keyOf g), f ∉ (mergeFeedback c fb ctx).1.unresolvedIssues) := by
  constructor
  · intro hconf f hf
    rw [mergeFeedback_unresolvedIssues]
    apply List.mem_append_left
    refine mem_detectConflicts_fst.mpr ⟨keyOf g, keyOf_mem_keysInOrder hg, hconf, ?_⟩
    rcases hAgents f (mem_groupOf.mp hf).1 with hc | hb
    · exact Or.inl (mem_canopyOf.mpr ⟨hf, hc⟩)
    · exact Or.inr (mem_barkOf.mpr ⟨hf, hb⟩)
  · intro hconf hnc f hf hmem
    rw [mergeFeedback_unresolvedIssues] at hmem
    rcases List.mem_append.mp hmem with hin | hin
    · rcases mem_detectConflicts_fst.mp hin with ⟨k, _, hck, hfk⟩
      have hkf : keyOf f = k := by
        rcases hfk with h | h
        · exact (mem_groupOf.mp (mem_canopyOf.mp h).1).2
        · exact (mem_groupOf.mp (mem_barkOf.mp h).1).2
      have hkg : keyOf f = keyOf g := (mem_groupOf.mp hf).2
      have hgk : keyOf g = k := hkg ▸ hkf
      rw [hgk] at hconf
      unfold conflictKey at hck
      rw [hconf] at hck
      exact Bool.false_ne_true hck
    · exact hnc f hf (by simpa using (List.mem_filter.mp hin).2)

/-- C2 witness: a concrete conflicting pair (Scenario B of the spec) —
both phase-2 items end up in `unresolvedIssues`. -/
theorem C2_witness :
    canopyAddFeedback ∈
      (mergeFeedback emptyCurriculum [canopyAddFeedback, barkSimplifyFeedback]
        freshContext).1.unresolvedIssues ∧
    barkSimplifyFeedback ∈
      (mergeFeedback emptyCurriculum [canopyAddFeedback, barkSimplifyFeedback]
        freshContext).1.unresolvedIssues := by
  have h := C2_conflict_group_membership emptyCurriculum
    [canopyAddFeedback, barkSimplifyFeedback] freshContext
    (by decide) canopyAddFeedback (by simp)
  exact ⟨h.1 (by decide) canopyAddFeedback (by decide),
         h.1 (by decide) barkSimplifyFeedback (by decide)⟩

/-! ## C10 -/

/-- C10: `unresolvedIssues` concatenates the conflict items with all
critical items, without deduplication — an item that is both in a
conflicting group and critical occurs at least twice. -/
theorem C10_critical_conflict_counted_twice (c : Curriculum) (fb : List AgentFeedback)
    (ctx : SharedContext)
    (hAgents : ∀ f ∈ fb, f.agentName = AgentName.canopy ∨ f.agentName = AgentName.bark)
    (f : AgentFeedback) (hf : f ∈ fb) (hcrit : f.severity = Severity.critical)
    (hconf : conflictKey fb (keyOf f) = true) :
    2 ≤ ((mergeFeedback c fb ctx).1.unresolvedIssues).count f := by
  rw [mergeFeedback_unresolvedIssues, List.count_append]
  have hmemg : f ∈ groupOf fb (keyOf f) := mem_groupOf.mpr ⟨hf, rfl⟩
  have h1 : f ∈ (detectConflicts fb).1 := by
    refine mem_detectConflicts_fst.mpr ⟨keyOf f, keyOf_mem_keysInOrder hf, hconf, ?_⟩
    rcases hAgents f hf with hc | hb
    · exact Or.inl (mem_canopyOf.mpr ⟨hmemg, hc⟩)
    · exact Or.inr (mem_barkOf.mpr ⟨hmemg, hb⟩)
  have h2 : f ∈ fb.filter (fun f => f.severity == Severity.critical) :=
    List.mem_filter.mpr ⟨hf, by simp [hcrit]⟩
  have c1 : 0 < (detectConflicts fb).1.count f := List.count_pos_iff.mpr h1
  have c2 : 0 < (fb.filter (fun f => f.severity == Severity.critical)).count f :=
    List.count_pos_iff.mpr h2
  omega

/-- C10 witness: a concrete run where a critical item of a conflicting
group is duplicated in `unresolvedIssues`. -/
theorem C10_witness :
    2 ≤ ((mergeFeedback emptyCurriculum [canopyCriticalAdd, barkSimplifyFeedback]
          freshContext).1.unresolvedIssues).count canopyCriticalAdd :=
  C10_critical_conflict_counted_twice emptyCurriculum
    [canopyCriticalAdd, barkSimplifyFeedback] freshContext
    (by decide) canopyCriticalAdd (by simp) (by rfl) (by decide)

/-! ## C5 -/

/-- C5 counterexample: a generation-stage failure and a technical-review
failure with the same inner message produce the *same* wrapped error, so
the propagated message does not identify the failing stage. -/
theorem C5_counterexample :
    orchestrateGrow (.error "boom") stageNoFindings stageNoFindings freshContext =
      .error "Orchestration failed: boom" ∧
    orchestrateGrow (.ok emptyCurriculum) stageBoom stageNoFindings freshContext =
      .error "Orchestration failed: boom" :=
  ⟨rfl, rfl⟩

/-- C5 (amended): each run yields either a complete `OrchestrationResult`
(the merge of all stage outputs) or a single propagated error whose
message prefixes `"Orchestration failed: "` to the first failing stage's
original message — but the wrapper itself does not say which stage failed. -/
theorem C5_complete_or_single_wrapped_error (gen : Except String Curriculum)
    (tech ped : Curriculum → Except String (List AgentFeedback)) (ctx : SharedContext) :
    (∃ c t p, gen = .ok c ∧ tech c = .ok t ∧ ped c = .ok p ∧
        orchestrateGrow gen tech ped ctx = .ok (mergeFeedback c (t ++ p) ctx).1) ∨
    (∃ e, orchestrateGrow gen tech ped ctx = .error ("Orchestration failed: " ++ e) ∧
        (gen = .error e ∨ ∃ c, gen = .ok c ∧
          (tech c = .error e ∨ ∃ t, tech c = .ok t ∧ ped c = .error e))) := by
  cases hg : gen with
  | error e =>
      right
      exact ⟨e, rfl, Or.inl rfl⟩
  | ok c =>
      cases ht : tech c with
      | error e =>
          right
          refine ⟨e, ?_, Or.inr ⟨c, rfl, Or.inl ht⟩⟩
          unfold orchestrateGrow orchestrateGrowSteps
          simp only [ht]
      | ok t =>
          cases hp : ped c with
          | error e =>
              right
              refine ⟨e, ?_, Or.inr ⟨c, rfl, Or.inr ⟨t, ht, hp⟩⟩⟩
              unfold orchestrateGrow orchestrateGrowSteps
              simp only [ht, hp]
          | ok p =>
              left
              refine ⟨c, t, p, rfl, ht, hp, ?_⟩
              unfold orchestrateGrow orchestrateGrowSteps
              simp only [ht, hp]

/-! ## C6 -/

/-- C6: `loadCurriculum` fails with the not-found error when the resolved
path is absent; fails with the markdown-unsupported error when the file
exists but is not the `.json` (structured) form; and returns a
`Curriculum` only for an existing `.json` file whose content parses. -/
theorem C6_loadCurriculum_behavior (fsys : String → Option String)
    (resolve : String → String) (parseJson : String → Except String Curriculum)
    (filePath : String) :
    (fsys (resolve filePath) = none →
      loadCurriculum fsys resolve parseJson filePath =
        .error ("Curriculum file not found: " ++ resolve filePath)) ∧
    (∀ content, fsys (resolve filePath) = some content →
      jsEndsWith filePath ".json" = false →
      loadCurriculum fsys resolve parseJson filePath =
        .error "Loading from markdown is not yet supported. Please provide a JSON file.") ∧
    (∀ c, loadCurriculum fsys resolve parseJson filePath = .ok c →
      ∃ content, fsys (resolve filePath) = some content ∧
        jsEndsWith filePath ".json" = true ∧ parseJson content = .ok c) := by
  refine ⟨?_, ?_, ?_⟩
  · intro h
    unfold loadCurriculum
    rw [h]
  · intro content h hext
    unfold loadCurriculum
    rw [h]
    simp [hext]
  · intro c h
    unfold loadCurriculum at h
    cases hf : fsys (resolve filePath) with
    | none => rw [hf] at h; cases h
    | some content =>
        rw [hf] at h
        by_cases hext : jsEndsWith filePath ".json"
        · simp only [hext, if_true] at h
          exact ⟨content, rfl, hext, h⟩
        · simp only [hext, if_false] at h
          cases h

/-- C6 witness: an existing markdown file is rejected with the
unsupported-format error. -/
theorem C6_witness :
    loadCurriculum mdOnlyFs id parseAlwaysFails "plan.md" =
      .error "Loading from markdown is not yet supported. Please provide a JSON file." :=
  (C6_loadCurriculum_behavior mdOnlyFs id parseAlwaysFails "plan.md").2.1
    "# Plan" (by rfl) (by decide)

/-! ## C7 -/

/-- C7: when `phaseNumber` matches no phase, `startSession` throws the
phase-not-found error and leaves the current-active-session register
unchanged; when some phase matches, it returns a fresh `active` session
with empty notes/questions and zero progress, which becomes the register's
content. -/
theorem C7_startSession_behavior (curriculum : Curriculum) (phaseNumber : Nat)
    (newId : String) (now : Int) (register : Option Session) :
    ((∀ p ∈ curriculum.phases, p.number ≠ phaseNumber) →
      startSession curriculum phaseNumber newId now register =
        (.error ("Phase " ++ toString phaseNumber ++ " not found in curriculum"), register)) ∧
    (∀ q ∈ curriculum.phases, q.number = phaseNumber →
      ∃ s, startSession curriculum phaseNumber newId now register = (.ok s, some s) ∧
        s.status = .active ∧ s.notes = [] ∧ s.questionsAsked = [] ∧
        s.progress = { objectivesCompleted := [], deliverablesCompleted := []
                     , timeSpentMinutes := 0 } ∧
        s.phaseNumber = phaseNumber ∧ s.startedAt = now ∧ s.id = newId ∧
        s.curriculumId = curriculum.id ∧ s.endedAt = none) := by
  constructor
  · intro h
    unfold startSession
    rw [List.find?_eq_none.mpr (by intro p hp; simpa using h p hp)]
  · intro q hq hqn
    have hsome : (curriculum.phases.find? (fun p => p.number == phaseNumber)).isSome :=
      List.find?_isSome.mpr ⟨q, hq, by simp [hqn]⟩
    obtain ⟨phase, hfind⟩ := Option.isSome_iff_exists.mp hsome
    unfold startSession
    rw [hfind]
    exact ⟨_, rfl, rfl, rfl, rfl, rfl, rfl, rfl, rfl, rfl, rfl⟩

/-- C7 witness: phase 2 is absent from `oneCurriculum` (error, register
kept); phase 1 exists (fresh active session). -/
theorem C7_witness :
    startSession oneCurriculum 2 "s9" 42 (some sessionX) =
      (.error ("Phase " ++ toString 2 ++ " not found in curriculum"), some sessionX) ∧
    ∃ s, startSession oneCurriculum 1 "s9" 42 none = (.ok s, some s) ∧ s.status = .active := by
  constructor
  · exact (C7_startSession_behavior oneCurriculum 2 "s9" 42 (some sessionX)).1 (by decide)
  · obtain ⟨s, hs, hact, -⟩ :=
      (C7_startSession_behavior oneCurriculum 1 "s9" 42 none).2 phaseOne (by simp [oneCurriculum]) (by rfl)
    exact ⟨s, hs, hact⟩

/-! ## C4 -/

/-- C4 counterexample: the filename is derived from the *save-time* clock
(`new Date()`), not from the session's start date.  The same session
(start date 1970-01-01) saved on two different days is written to two
different files. -/
theorem C4_counterexample :
    (saveSession "/s" sessionX 0).1 = "/s/1970-01-01-learn-x-phase-1.json" ∧
    (saveSession "/s" sessionX 86400000).1 = "/s/1970-01-02-learn-x-phase-1.json" ∧
    (saveSession "/s" sessionX 0).1 ≠ (saveSession "/s" sessionX 86400000).1 := by
  refine ⟨rfl, rfl, ?_⟩
  decide

/-- C4 (amended): the target file name is computed deterministically from
the save-time date, the slugified curriculum title, and the phase number —
two saves with equal title and phase performed on the same (UTC) day write
to the same file. -/
theorem C4_filename_from_save_day (dir : String) (s1 s2 : Session) (now1 now2 : Int)
    (htitle : s1.curriculumTitle = s2.curriculumTitle)
    (hphase : s1.phaseNumber = s2.phaseNumber)
    (hday : isoDatePart now1 = isoDatePart now2) :
    (saveSession dir s1 now1).1 = (saveSession dir s2 now2).1 := by
  unfold saveSession generateSessionFilename
  dsimp only
  rw [htitle, hphase, hday]

/-- C4 witness: the same-day saves of two sessions sharing title and phase
(two clock readings two hours apart) target the same path. -/
theorem C4_witness :
    (saveSession "/s" sessionX 1000).1 = (saveSession "/s" sessionEnded 7200000).1 :=
  C4_filename_from_save_day "/s" sessionX sessionEnded 1000 7200000 rfl rfl (by decide)

/-! ## C9 -/

/-- C9: `nextSteps` is the fixed-order concatenation
(first remaining deliverable as "Start with", first remaining objective as
"Focus on", a review-notes reminder only when the session has notes), and
`promptForNextSession` follows the deliverable-first if/else-if precedence
(never both suffixes).  The added implication pins Scenario E:
with a remaining deliverable, `nextSteps[0]` references it. -/
theorem C9_generateHandoff_order (session : Session) (phase : Phase) (notes : Option String) :
    ((generateHandoff session phase notes).nextSteps =
      (match (phase.deliverables.filter
          (fun d => !session.progress.deliverablesCompleted.contains d.id)).head? with
       | some d => ["Start with: " ++ d.title]
       | none => []) ++
      (match (phase.objectives.filter
          (fun o => !session.progress.objectivesCompleted.contains o.id)).head? with
       | some o => ["Focus on: " ++ o.description]
       | none => []) ++
      (if session.notes.length > 0 then ["Review notes from last session"] else [])) ∧
    ((generateHandoff session phase notes).promptForNextSession =
      (match (phase.deliverables.filter
          (fun d => !session.progress.deliverablesCompleted.contains d.id)).head? with
       | some d =>
           "Resume Phase " ++ toString session.phaseNumber ++ " - " ++ session.phaseTitle ++
             ". Focus on: " ++ d.title
       | none =>
           match (phase.objectives.filter
               (fun o => !session.progress.objectivesCompleted.contains o.id)).head? with
           | some o =>
               "Resume Phase " ++ toString session.phaseNumber ++ " - " ++ session.phaseTitle ++
                 ". Complete: " ++ o.description
           | none =>
               "Resume Phase " ++ toString session.phaseNumber ++ " - " ++ session.phaseTitle)) ∧
    (∀ d, (phase.deliverables.filter
        (fun d => !session.progress.deliverablesCompleted.contains d.id)).head? = some d →
      (generateHandoff session phase notes).nextSteps.head? =
        some ("Start with: " ++ d.title)) := by
  unfold generateHandoff
  dsimp only
  cases hd : (phase.deliverables.filter
      (fun d => !session.progress.deliverablesCompleted.contains d.id)).head? with
  | none =>
      cases ho : (phase.objectives.filter
          (fun o => !session.progress.objectivesCompleted.contains o.id)).head? with
      | none => simp [hd, ho]
      | some o => simp [hd, ho]
  | some d =>
      cases ho : (phase.objectives.filter
          (fun o => !session.progress.objectivesCompleted.contains o.id)).head? with
      | none => simp [hd, ho]
      | some o => simp [hd, ho]

/-- C9 witness (Scenario E): 3 objectives (1 complete), 2 deliverables
(0 complete) — `nextSteps[0]` references the first remaining deliverable. -/
theorem C9_witness :
    (generateHandoff sessionX phaseOne none).nextSteps.head? =
      some ("Start with: " ++ "hello world app") :=
  (C9_generateHandoff_order sessionX phaseOne none).2.2
    { id := "d1", title := "hello world app", description := ""
    , acceptanceCriteria := [], completed := false }
    (by rfl)

/-! ## Calendar lemmas for the ISO date roundtrip -/

/-- Recombination core of the calendar bijection: `daysFromCivil` applied
to the components produced by the `civilFromDays` decomposition returns
the original day number. -/
theorem daysFromCivil_recombine (z za c nc zc ny y mp d m : Int)
    (hza : za = z + 719468)
    (hc : c = (4 * za + 3) / 146097)
    (hnc : nc = (4 * za + 3) % 146097 / 4)
    (hzc : zc = (4 * nc + 3) / 1461)
    (hny : ny = (4 * nc + 3) % 1461 / 4)
    (hy : y = 100 * c + zc)
    (hmp : mp = (5 * ny + 2) / 153)
    (hd : d = ny - (153 * mp + 2) / 5 + 1)
    (hm : m = mp + (if mp < 10 then 3 else -9)) :
    daysFromCivil (if m ≤ 2 then y + 1 else y) m d = z := by
  unfold daysFromCivil
  dsimp only
  have hnc_range : 0 ≤ nc ∧ nc ≤ 36524 := by omega
  have hzc_range : 0 ≤ zc ∧ zc ≤ 99 := by omega
  have hny_range : 0 ≤ ny ∧ ny ≤ 365 := by omega
  have hmp_range : 0 ≤ mp ∧ mp ≤ 11 := by omega
  have e1 : (100 * c + zc) / 100 = c := by omega
  have e2 : (100 * c + zc) % 100 = zc := by omega
  by_cases h10 : mp < 10
  · have hm3 : m = mp + 3 := by rw [hm, if_pos h10]
    have hm2 : ¬ (m ≤ 2) := by omega
    have hmgt : m > 2 := by omega
    rw [if_neg hm2, if_neg hm2, if_pos hmgt, hy, e1, e2, hm3]
    have e3 : mp + 3 + -3 = mp := by ring
    rw [e3]
    have h1 : (153 * mp + 2) / 5 + d - 1 = ny := by omega
    have h2 : 1461 * zc / 4 + ny = nc := by omega
    have h3 : 146097 * c / 4 + nc = za := by omega
    omega
  · have hm3 : m = mp + -9 := by rw [hm, if_neg h10]
    have hm2 : m ≤ 2 := by omega
    have hmgt : ¬ (m > 2) := by omega
    rw [if_pos hm2, if_pos hm2, if_neg hmgt, hm3]
    have e4 : y + 1 - 1 = y := by ring
    rw [e4, hy, e1, e2]
    have e3 : mp + -9 + 9 = mp := by ring
    rw [e3]
    have h1 : (153 * mp + 2) / 5 + d - 1 = ny := by omega
    have h2 : 1461 * zc / 4 + ny = nc := by omega
    have h3 : 146097 * c / 4 + nc = za := by omega
    omega

/-- The calendar bijection: `daysFromCivil` inverts `civilFromDays`. -/
theorem daysFromCivil_civilFromDays (z : Int) :
    daysFromCivil (civilFromDays z).1 (civilFromDays z).2.1 (civilFromDays z).2.2 = z := by
  unfold civilFromDays
  dsimp only
  exact daysFromCivil_recombine z _ _ _ _ _ _ _ _ _ rfl rfl rfl rfl rfl rfl rfl rfl rfl

/-- Month and day components are in their calendar ranges. -/
theorem civilFromDays_month_day (z : Int) :
    1 ≤ (civilFromDays z).2.1 ∧ (civilFromDays z).2.1 ≤ 12 ∧
    1 ≤ (civilFromDays z).2.2 ∧ (civilFromDays z).2.2 ≤ 31 := by
  unfold civilFromDays
  dsimp only
  split_ifs <;> refine ⟨?_, ?_, ?_, ?_⟩ <;> omega

/-- Year bound for the day-number range reachable from valid JS dates. -/
theorem civilFromDays_year (z : Int) (h1 : -100000001 ≤ z) (h2 : z ≤ 100000001) :
    -999999 ≤ (civilFromDays z).1 ∧ (civilFromDays z).1 ≤ 999999 := by
  unfold civilFromDays
  dsimp only
  split_ifs <;> constructor <;> omega

end Groot
